import Mathlib

/-!
Shallow embedding of the Gender & Youth Department CRUD backend
(`src/main.py`, `src/schemas.py`) for verification.

Stored records are modelled as association lists of field name to BSON
value, with Python-dict semantics (insertion order, in-place replacement
on assignment to an existing key).  The document store (MongoDB, an
external collaborator) is modelled as a list of documents per collection,
with `update_one` / `delete_one` / `find_one` acting on the first
document whose `_id` matches the filter.  Handlers return the new
collection state together with an `Except` result mirroring
FastAPI's `HTTPException` outcomes.
-/

set_option autoImplicit false

namespace GYD

/-- BSON-ish values as they appear in stored records and payloads.
`date s` stands for a Python `date`/`datetime` object whose
`isoformat()` rendering is `s` (the only observation the code makes of
such values); `oid s` is a BSON ObjectId whose canonical `str` form is
`s` (24 lowercase hex chars). -/
inductive BVal where
  | str (s : String)
  | int (n : Int)
  | oid (s : String)
  | date (s : String)
  | bool (b : Bool)
  | null
deriving DecidableEq, Repr

/-- A document: ordered field list, Python-dict style. -/
abbrev Doc := List (String × BVal)

/-- Dict lookup `d[k]`: first entry with key `k`. -/
def dlookup (d : Doc) (k : String) : Option BVal :=
  (d.find? (fun p => p.1 == k)).map (fun p => p.2)

/-- Python `d[k] = v`: replace in place if the key exists, else append. -/
def dset (d : Doc) (k : String) (v : BVal) : Doc :=
  match d with
  | [] => [(k, v)]
  | (k', v') :: rest => if k' == k then (k, v) :: rest else (k', v') :: dset rest k v

/-- Python `d.pop(k)`: value of the first entry with key `k` and the
remaining entries in order, or `none` when absent. -/
def dpop (d : Doc) (k : String) : Option (BVal × Doc) :=
  match d with
  | [] => none
  | (k', v') :: rest =>
    if k' == k then some (v', rest)
    else (dpop rest k).map (fun p => (p.1, (k', v') :: p.2))

/-- Python `str(v)` for the values an `_id` can hold. -/
def pyStr (v : BVal) : String :=
  match v with
  | .str s => s
  | .int n => toString n
  | .oid s => s
  | .date s => s
  | .bool b => if b then "True" else "False"
  | .null => "None"

/-- The per-value step of `serialize_doc`'s loop: a value with an
`isoformat` attribute (a date/datetime) is replaced by its ISO-8601
string; every other value passes through. -/
def isoStep (v : BVal) : BVal :=
  match v with
  | .date s => .str s
  | v => v

/-- Embedding of `serialize_doc` (src/main.py lines 25-38): copy the
dict, rename `_id` to `id` rendered via `str`, then convert every
date/datetime value to its `isoformat` string.  The Python code copies
the argument (`doc = dict(doc)`) before mutating, so the caller's record
is untouched; the embedding is a pure function of the input. -/
def serialize_doc (d : Doc) : Doc :=
  if d.isEmpty then d
  else
    let d1 :=
      match dpop d "_id" with
      | some (v, rest) => dset rest "id" (.str (pyStr v))
      | none => d
    d1.map (fun p => (p.1, isoStep p.2))

-- ObjectId parsing --------------------------------------------------------

/-- Hex-digit test for ObjectId strings. -/
def isHexChar (c : Char) : Bool :=
  c.isDigit || ('a' ≤ c && c ≤ 'f') || ('A' ≤ c && c ≤ 'F')

/-- Parsing via `bson.ObjectId(s)` on a string succeeds exactly when `s` is 24
hexadecimal characters; otherwise it raises (caught by the handlers as
a 400). -/
def isValidObjectId (s : String) : Bool :=
  s.length == 24 && s.toList.all isHexChar

/-- ASCII lowercase of one character. -/
def lowerChar (c : Char) : Char :=
  if 'A' ≤ c && c ≤ 'Z' then Char.ofNat (c.toNat + 32) else c

/-- ASCII lowercase of a string (structural, over the character list). -/
def strToLower (s : String) : String :=
  String.mk (s.toList.map lowerChar)

/-- Result of `ObjectId(s)` as a value: canonical (lowercase) form, or `none` when
the constructor raises. -/
def parseObjectId (s : String) : Option BVal :=
  if isValidObjectId s then some (.oid (strToLower s)) else none

-- The document store (external collaborator: MongoDB) ---------------------

/-- Mongo `$set` document update: each supplied field is written in turn. -/
def applySet (d : Doc) (upd : List (String × BVal)) : Doc :=
  upd.foldl (fun acc kv => dset acc kv.1 kv.2) d

/-- The filter used by every handler: `_id` equals the given ObjectId. -/
def matchesId (oid : BVal) (d : Doc) : Bool :=
  dlookup d "_id" == some oid

/-- Embedding of `collection.update_one(filter, set)`: applies the `$set` to the first
matching document; returns `matched_count` and the new collection. -/
def update_one (coll : List Doc) (oid : BVal) (upd : List (String × BVal)) :
    Nat × List Doc :=
  match coll with
  | [] => (0, [])
  | d :: rest =>
    if matchesId oid d then (1, applySet d upd :: rest)
    else
      let r := update_one rest oid upd
      (r.1, d :: r.2)

/-- Embedding of `collection.delete_one(filter)`: removes the first matching document;
returns `deleted_count` and the new collection. -/
def delete_one (coll : List Doc) (oid : BVal) : Nat × List Doc :=
  match coll with
  | [] => (0, [])
  | d :: rest =>
    if matchesId oid d then (1, rest)
    else
      let r := delete_one rest oid
      (r.1, d :: r.2)

/-- Embedding of `collection.find_one(filter)`. -/
def find_one (coll : List Doc) (oid : BVal) : Option Doc :=
  coll.find? (matchesId oid)

-- HTTP error outcomes ------------------------------------------------------

/-- Outcomes of `HTTPException` raised by the handlers. -/
inductive HErr where
  | badRequest (detail : String)
  | notFound (detail : String)
  | serverError (detail : String)
deriving DecidableEq, Repr

def HErr.detail : HErr → String
  | .badRequest d => d
  | .notFound d => d
  | .serverError d => d

-- Partial-update payload models (src/main.py lines 91-120) -----------------

/-- Model `EventUpdate` (all fields optional, default `None`). -/
structure EventUpdate where
  title : Option String := none
  description : Option String := none
  date : Option String := none
  time : Option String := none
  location : Option String := none
  audience : Option String := none
  link : Option String := none
deriving DecidableEq, Repr

/-- Model `CourseUpdate`: note no range or enum constraint on any field,
unlike the create-time `Course` schema. -/
structure CourseUpdate where
  code : Option String := none
  title : Option String := none
  semester : Option String := none
  year : Option Int := none
  lecturer : Option String := none
  credits : Option Int := none
  description : Option String := none
deriving DecidableEq, Repr

/-- Model `TimetableUpdate`: likewise unconstrained. -/
structure TimetableUpdate where
  semester : Option String := none
  year : Option Int := none
  day : Option String := none
  start_time : Option String := none
  end_time : Option String := none
  course_code : Option String := none
  venue : Option String := none
  lecturer : Option String := none
  notes : Option String := none
deriving DecidableEq, Repr

/-- One entry of `model_dump()` after the `v is not None` filter. -/
def optField (k : String) (v : Option BVal) : List (String × BVal) :=
  match v with
  | some w => [(k, w)]
  | none => []

/-- The dict comprehension of `update_event`: non-`None` fields of the
payload, in declaration order. -/
def EventUpdate.update_data (p : EventUpdate) : List (String × BVal) :=
  optField "title" (p.title.map BVal.str) ++
  optField "description" (p.description.map BVal.str) ++
  optField "date" (p.date.map BVal.str) ++
  optField "time" (p.time.map BVal.str) ++
  optField "location" (p.location.map BVal.str) ++
  optField "audience" (p.audience.map BVal.str) ++
  optField "link" (p.link.map BVal.str)

/-- The dict comprehension of `update_course`. -/
def CourseUpdate.update_data (p : CourseUpdate) : List (String × BVal) :=
  optField "code" (p.code.map BVal.str) ++
  optField "title" (p.title.map BVal.str) ++
  optField "semester" (p.semester.map BVal.str) ++
  optField "year" (p.year.map BVal.int) ++
  optField "lecturer" (p.lecturer.map BVal.str) ++
  optField "credits" (p.credits.map BVal.int) ++
  optField "description" (p.description.map BVal.str)

/-- The dict comprehension of `update_timetable`. -/
def TimetableUpdate.update_data (p : TimetableUpdate) : List (String × BVal) :=
  optField "semester" (p.semester.map BVal.str) ++
  optField "year" (p.year.map BVal.int) ++
  optField "day" (p.day.map BVal.str) ++
  optField "start_time" (p.start_time.map BVal.str) ++
  optField "end_time" (p.end_time.map BVal.str) ++
  optField "course_code" (p.course_code.map BVal.str) ++
  optField "venue" (p.venue.map BVal.str) ++
  optField "lecturer" (p.lecturer.map BVal.str) ++
  optField "notes" (p.notes.map BVal.str)

-- Update / delete handlers (src/main.py) -----------------------------------

/-- Embedding of `update_event` (src/main.py lines 141-156).  Takes the current
`event` collection and the store server's clock value (`updated_at`
source); returns the new collection state and the HTTP outcome.  An
error raised before `update_one` leaves the collection untouched. -/
def update_event (coll : List Doc) (event_id : String) (p : EventUpdate)
    (serverTime : BVal) : List Doc × Except HErr (Option Doc) :=
  match parseObjectId event_id with
  | none => (coll, .error (.badRequest "Invalid event id"))
  | some oid =>
    let ud := p.update_data
    if ud.isEmpty then (coll, .error (.badRequest "No fields to update"))
    else
      let ud := ud ++ [("updated_at", serverTime)]
      let r := update_one coll oid ud
      if r.1 == 0 then (r.2, .error (.notFound "Event not found"))
      else (r.2, .ok ((find_one r.2 oid).map serialize_doc))

/-- Embedding of `delete_event` (src/main.py lines 159-169). -/
def delete_event (coll : List Doc) (event_id : String) :
    List Doc × Except HErr Doc :=
  match parseObjectId event_id with
  | none => (coll, .error (.badRequest "Invalid event id"))
  | some oid =>
    let r := delete_one coll oid
    if r.1 == 0 then (r.2, .error (.notFound "Event not found"))
    else (r.2, .ok [("success", .bool true)])

/-- Embedding of `update_course` (src/main.py lines 195-210). -/
def update_course (coll : List Doc) (course_id : String) (p : CourseUpdate)
    (serverTime : BVal) : List Doc × Except HErr (Option Doc) :=
  match parseObjectId course_id with
  | none => (coll, .error (.badRequest "Invalid course id"))
  | some oid =>
    let ud := p.update_data
    if ud.isEmpty then (coll, .error (.badRequest "No fields to update"))
    else
      let ud := ud ++ [("updated_at", serverTime)]
      let r := update_one coll oid ud
      if r.1 == 0 then (r.2, .error (.notFound "Course not found"))
      else (r.2, .ok ((find_one r.2 oid).map serialize_doc))

/-- Embedding of `delete_course` (src/main.py lines 213-223). -/
def delete_course (coll : List Doc) (course_id : String) :
    List Doc × Except HErr Doc :=
  match parseObjectId course_id with
  | none => (coll, .error (.badRequest "Invalid course id"))
  | some oid =>
    let r := delete_one coll oid
    if r.1 == 0 then (r.2, .error (.notFound "Course not found"))
    else (r.2, .ok [("success", .bool true)])

/-- Embedding of `update_timetable` (src/main.py lines 253-268). -/
def update_timetable (coll : List Doc) (slot_id : String) (p : TimetableUpdate)
    (serverTime : BVal) : List Doc × Except HErr (Option Doc) :=
  match parseObjectId slot_id with
  | none => (coll, .error (.badRequest "Invalid timetable id"))
  | some oid =>
    let ud := p.update_data
    if ud.isEmpty then (coll, .error (.badRequest "No fields to update"))
    else
      let ud := ud ++ [("updated_at", serverTime)]
      let r := update_one coll oid ud
      if r.1 == 0 then (r.2, .error (.notFound "Timetable slot not found"))
      else (r.2, .ok ((find_one r.2 oid).map serialize_doc))

/-- Embedding of `delete_timetable` (src/main.py lines 271-281). -/
def delete_timetable (coll : List Doc) (slot_id : String) :
    List Doc × Except HErr Doc :=
  match parseObjectId slot_id with
  | none => (coll, .error (.badRequest "Invalid timetable id"))
  | some oid =>
    let r := delete_one coll oid
    if r.1 == 0 then (r.2, .error (.notFound "Timetable slot not found"))
    else (r.2, .ok [("success", .bool true)])

-- Listing ------------------------------------------------------------------

/-- Modelled from the spec: `get_documents` lives in `database.py`, which
is not among the source files; the spec describes it as
`query(collection, filter, limit?)` returning the records whose fields
exactly match every filter entry, all records (insertion order) on an
empty filter, truncated to `limit` when one is given. -/
def get_documents (coll : List Doc) (query : List (String × BVal))
    (limit : Option Nat) : List Doc :=
  let matched := coll.filter (fun d => query.all (fun kv => dlookup d kv.1 == some kv.2))
  match limit with
  | none => matched
  | some n => matched.take n

/-- Embedding of `list_courses` (src/main.py lines 175-184).  Python truthiness: an
empty-string `semester` is falsy and contributes no filter entry; `year`
is tested with `is not None`. -/
def list_courses (coll : List Doc) (semester : Option String)
    (year : Option Int) (limit : Option Nat) : List Doc :=
  let q1 : List (String × BVal) :=
    match semester with
    | some s => if s.isEmpty then [] else [("semester", .str s)]
    | none => []
  let q2 : List (String × BVal) :=
    match year with
    | some y => [("year", .int y)]
    | none => []
  (get_documents coll (q1 ++ q2) limit).map serialize_doc

-- Create-time validation (src/schemas.py) -----------------------------------

/-- The `Semester` enumeration. -/
def validSemester (s : String) : Bool :=
  s == "Fall" || s == "Spring" || s == "Summer"

/-- The `DayOfWeek` enumeration. -/
def validDay (s : String) : Bool :=
  s == "Monday" || s == "Tuesday" || s == "Wednesday" ||
  s == "Thursday" || s == "Friday" || s == "Saturday"

/-- Constraint `Field(..., ge=2000, le=2100)` on `year` (Course and Timetable). -/
def yearInRange (y : Int) : Bool := 2000 ≤ y && y ≤ 2100

/-- Constraint `Field(3, ge=0, le=30)` on `credits` (Course). -/
def creditsInRange (c : Int) : Bool := 0 ≤ c && c ≤ 30

/-- A `Course` create payload after JSON decoding, before pydantic
validation (required fields present and type-correct). -/
structure CourseIn where
  code : String
  title : String
  semester : String
  year : Int
  lecturer : Option String := none
  credits : Option Int := none
  description : Option String := none
deriving DecidableEq, Repr

/-- Pydantic validation of the `Course` schema: semester must be a
member of the enumeration, `year` in [2000, 2100], `credits`
(defaulting to 3) in [0, 30]. -/
def validateCourse (p : CourseIn) : Bool :=
  validSemester p.semester && yearInRange p.year &&
  creditsInRange (p.credits.getD 3)

/-- A `Timetable` create payload after JSON decoding. -/
structure TimetableIn where
  semester : String
  year : Int
  day : String
  start_time : String
  end_time : String
  course_code : String
  venue : Option String := none
  lecturer : Option String := none
  notes : Option String := none
deriving DecidableEq, Repr

/-- Pydantic validation of the `Timetable` schema. -/
def validateTimetable (p : TimetableIn) : Bool :=
  validSemester p.semester && yearInRange p.year && validDay p.day

-- Diagnostic endpoint (src/main.py lines 54-73) -----------------------------

/-- What the handler can observe of the module-level `db` handle: absent
(`None`), or a handle whose `list_collection_names()` either raises
(modelled as `.error msg`) or returns the names. -/
abbrev DbConn := Except String (List String)

/-- Embedding of `ensure_db_available` (src/main.py lines 41-43): raises a 500
`HTTPException` when `db is None`. -/
def ensure_db_available (db : Option DbConn) : Except HErr Unit :=
  match db with
  | none => .error (.serverError "Database not available. Configure DATABASE_URL and DATABASE_NAME.")
  | some _ => .ok ()

/-- The JSON body `/test` responds with. -/
structure TestResponse where
  backend : String
  database : String
  database_url : String
  database_name : String
  connection_status : String
  collections : List String
deriving DecidableEq, Repr

/-- Embedding of `test_database` (src/main.py lines 54-73).  The response dict is
mutated in program order inside a try/except, so when
`list_collection_names()` raises, `connection_status` has already been
set to "Connected" while `collections` is still empty.  The function is
total: every failure is caught and reported in-body (HTTP 200). -/
def test_database (urlSet nameSet : Bool) (db : Option DbConn) : TestResponse :=
  let r0 : TestResponse := {
    backend := "✅ Running"
    database := "❌ Not Available"
    database_url := if urlSet then "✅ Set" else "❌ Not Set"
    database_name := if nameSet then "✅ Set" else "❌ Not Set"
    connection_status := "Not Connected"
    collections := [] }
  match ensure_db_available db with
  | .error e => { r0 with database := "❌ " ++ e.detail }
  | .ok _ =>
    match db with
    | some (.ok names) =>
      { r0 with
        connection_status := "Connected"
        database := "✅ Connected & Working"
        collections := names }
    | some (.error msg) =>
      { r0 with
        connection_status := "Connected"
        database := "❌ Error: " ++ msg.take 80 }
    | none => r0

-- Concrete documents used to instantiate the theorems -----------------------

/-- A well-formed ObjectId string. -/
def exOid : String := "65f1a2b3c4d5e6f7a8b9c0d1"

/-- A stored event record. -/
def exDoc : Doc :=
  [("_id", .oid exOid), ("title", .str "Open Day"),
   ("date", .date "2025-03-01"), ("location", .str "Lagos")]

/-- An event collection holding just `exDoc`. -/
def exColl : List Doc := [exDoc]

/-- A partial update supplying only `location`. -/
def exPayload : EventUpdate := { location := some "Main Hall" }

/-- A server timestamp value. -/
def exTime : BVal := .date "2025-01-01T00:00:00"

/-- A second well-formed ObjectId string. -/
def exCourseOid : String := "65f1a2b3c4d5e6f7a8b9c0d2"

/-- A stored course record (valid at create time). -/
def exCourseDoc : Doc :=
  [("_id", .oid exCourseOid), ("code", .str "GYD101"), ("title", .str "Intro"),
   ("semester", .str "Fall"), ("year", .int 2025), ("credits", .int 3)]

/-- A course collection holding just `exCourseDoc`. -/
def exCourseColl : List Doc := [exCourseDoc]

/-- An update payload whose values all violate the create-time
constraints of the `Course` schema. -/
def exBadUpdate : CourseUpdate :=
  { semester := some "Winter", year := some 2500, credits := some 99 }

/-- A partial course update supplying only `title`. -/
def exCoursePayload : CourseUpdate := { title := some "Advanced" }

/-- A partial timetable update supplying only `venue`. -/
def exSlotPayload : TimetableUpdate := { venue := some "Hall B" }

-- ===========================================================================
-- Theorems
-- ===========================================================================

-- Basic dict lemmas ---------------------------------------------------------

theorem dlookup_nil (k : String) : dlookup [] k = none := rfl

theorem dlookup_cons (k k' : String) (v : BVal) (d : Doc) :
    dlookup ((k', v) :: d) k = if k' == k then some v else dlookup d k := by
  by_cases h : k' == k <;> simp [dlookup, List.find?, h]

theorem dlookup_dset_self (d : Doc) (k : String) (v : BVal) :
    dlookup (dset d k v) k = some v := by
  induction d with
  | nil => simp [dset, dlookup, List.find?]
  | cons hd tl ih =>
    obtain ⟨k', v'⟩ := hd
    by_cases h : k' == k
    · simp [dset, h, dlookup_cons]
    · simp [dset, h, dlookup_cons, ih]

theorem dlookup_dset_ne (d : Doc) (k k' : String) (v : BVal) (h : k' ≠ k) :
    dlookup (dset d k' v) k = dlookup d k := by
  induction d with
  | nil => simp [dset, dlookup_cons, h, dlookup_nil]
  | cons hd tl ih =>
    obtain ⟨k₀, v₀⟩ := hd
    by_cases h0 : k₀ == k'
    · have hk0 : k₀ = k' := by simpa using h0
      have hne : (k₀ == k) = false := by
        simp only [beq_eq_false_iff_ne, ne_eq]
        intro hh; exact h (hk0.symm.trans hh)
      have hne' : (k' == k) = false := by simpa using h
      simp [dset, h0, dlookup_cons, hne, hne']
    · by_cases h1 : k₀ == k <;> simp_all [dset, dlookup_cons]

theorem dlookup_map_iso (d : Doc) (k : String) :
    dlookup (d.map (fun p => (p.1, isoStep p.2))) k = (dlookup d k).map isoStep := by
  induction d with
  | nil => simp [dlookup]
  | cons hd tl ih =>
    obtain ⟨k₀, v₀⟩ := hd
    by_cases h : k₀ == k <;> simp [dlookup_cons, h, ih]

theorem dlookup_dpop_ne (d : Doc) (k k' : String) (v : BVal) (rest : Doc)
    (hpop : dpop d k' = some (v, rest)) (h : k ≠ k') :
    dlookup rest k = dlookup d k := by
  induction d generalizing rest with
  | nil => simp [dpop] at hpop
  | cons hd tl ih =>
    obtain ⟨k₀, v₀⟩ := hd
    by_cases h0 : k₀ == k'
    · simp [dpop, h0] at hpop
      obtain ⟨hv, hrest⟩ := hpop
      have hk0 : k₀ ≠ k := by
        intro hk
        exact h (hk ▸ beq_iff_eq.mp h0)
      simp [← hrest, dlookup_cons, hk0, show (k₀ == k) = false by simpa using hk0]
    · cases hpop' : dpop tl k' with
      | none => simp [dpop, h0, hpop'] at hpop
      | some q =>
        obtain ⟨qv, qrest⟩ := q
        simp [dpop, h0, hpop'] at hpop
        obtain ⟨hv, hr⟩ := hpop
        subst hv
        subst hr
        by_cases h1 : k₀ == k <;>
          simp [dlookup_cons, h1, ih qrest hpop']

theorem dpop_none_iff (d : Doc) (k : String) :
    dpop d k = none ↔ dlookup d k = none := by
  induction d with
  | nil => simp [dpop, dlookup]
  | cons hd tl ih =>
    obtain ⟨k₀, v₀⟩ := hd
    by_cases h : k₀ == k <;> simp [dpop, dlookup_cons, h, ih]

theorem dpop_some_dlookup (d : Doc) (k : String) (v : BVal) (rest : Doc)
    (hpop : dpop d k = some (v, rest)) : dlookup d k = some v := by
  induction d generalizing rest with
  | nil => simp [dpop] at hpop
  | cons hd tl ih =>
    obtain ⟨k₀, v₀⟩ := hd
    by_cases h : k₀ == k
    · simp [dpop, h] at hpop
      simp [dlookup_cons, h, hpop.1]
    · cases hpop' : dpop tl k with
      | none => simp [dpop, h, hpop'] at hpop
      | some q =>
        obtain ⟨qv, qrest⟩ := q
        simp [dpop, h, hpop'] at hpop
        simp [dlookup_cons, h, ih qrest (hpop.1 ▸ hpop')]

theorem dlookup_some_dpop (d : Doc) (k : String) (v : BVal)
    (h : dlookup d k = some v) : ∃ rest, dpop d k = some (v, rest) := by
  cases hpop : dpop d k with
  | none => rw [(dpop_none_iff d k).mp hpop] at h; exact absurd h (by simp)
  | some q =>
    obtain ⟨qv, qrest⟩ := q
    have hq := dpop_some_dlookup d k qv qrest hpop
    have hv : qv = v := by rw [hq] at h; exact Option.some.inj h
    subst hv
    exact ⟨qrest, rfl⟩

theorem dlookup_eq_none_of_not_mem (d : Doc) (k : String)
    (h : k ∉ d.map Prod.fst) : dlookup d k = none := by
  induction d with
  | nil => rfl
  | cons hd tl ih =>
    obtain ⟨k₀, v₀⟩ := hd
    simp only [List.map_cons, List.mem_cons, not_or] at h
    have hne : (k₀ == k) = false := by
      simp only [beq_eq_false_iff_ne, ne_eq]
      intro hh; exact h.1 hh.symm
    simp [dlookup_cons, hne, ih h.2]

theorem dpop_rest_dlookup_none (d : Doc) (k : String) (v : BVal) (rest : Doc)
    (hnd : (d.map Prod.fst).Nodup) (hpop : dpop d k = some (v, rest)) :
    dlookup rest k = none := by
  induction d generalizing rest with
  | nil => simp [dpop] at hpop
  | cons hd tl ih =>
    obtain ⟨k₀, v₀⟩ := hd
    simp only [List.map_cons, List.nodup_cons] at hnd
    by_cases h : k₀ == k
    · simp [dpop, h] at hpop
      have hk : k₀ = k := by simpa using h
      rw [← hpop.2]
      exact dlookup_eq_none_of_not_mem tl k (hk ▸ hnd.1)
    · cases hpop' : dpop tl k with
      | none => simp [dpop, h, hpop'] at hpop
      | some q =>
        obtain ⟨qv, qrest⟩ := q
        simp [dpop, h, hpop'] at hpop
        obtain ⟨hv, hr⟩ := hpop
        subst hv
        subst hr
        simp [dlookup_cons, h, ih qrest hnd.2 hpop']

/-- Idempotence of `isoStep`: once rendered, a value stays put. -/
theorem isoStep_isoStep (v : BVal) : isoStep (isoStep v) = isoStep v := by
  cases v <;> rfl

-- Store-operation lemmas ----------------------------------------------------

theorem applySet_nil (d : Doc) : applySet d [] = d := rfl

theorem applySet_cons (d : Doc) (kv : String × BVal) (rest : List (String × BVal)) :
    applySet d (kv :: rest) = applySet (dset d kv.1 kv.2) rest := rfl

theorem applySet_append (d : Doc) (l₁ l₂ : List (String × BVal)) :
    applySet d (l₁ ++ l₂) = applySet (applySet d l₁) l₂ :=
  List.foldl_append _ _ _ _

theorem applySet_lookup_not_mem (upd : List (String × BVal)) (d : Doc) (k : String)
    (h : k ∉ upd.map Prod.fst) : dlookup (applySet d upd) k = dlookup d k := by
  induction upd generalizing d with
  | nil => rfl
  | cons kv rest ih =>
    simp only [List.map_cons, List.mem_cons, not_or] at h
    rw [applySet_cons, ih _ h.2, dlookup_dset_ne _ _ _ _ (fun hh => h.1 hh.symm)]

theorem applySet_lookup_mem (upd : List (String × BVal)) (d : Doc) (k : String) (v : BVal)
    (hnd : (upd.map Prod.fst).Nodup) (hmem : (k, v) ∈ upd) :
    dlookup (applySet d upd) k = some v := by
  induction upd generalizing d with
  | nil => simp at hmem
  | cons kv rest ih =>
    simp only [List.map_cons, List.nodup_cons] at hnd
    rcases List.mem_cons.mp hmem with heq | hmem'
    · subst heq
      rw [applySet_cons, applySet_lookup_not_mem rest _ k (by simpa using hnd.1)]
      exact dlookup_dset_self d k v
    · rw [applySet_cons]
      exact ih _ hnd.2 hmem'

theorem update_one_frame (coll : List Doc) (oid : BVal) (upd : List (String × BVal))
    (k : String) (hk : k ∉ upd.map Prod.fst) :
    ((update_one coll oid upd).2).map (fun d => dlookup d k) =
      coll.map (fun d => dlookup d k) := by
  induction coll with
  | nil => rfl
  | cons d rest ih =>
    by_cases h : matchesId oid d
    · simp [update_one, h, applySet_lookup_not_mem upd d k hk]
    · simp [update_one, h, ih]

theorem update_one_no_match (coll : List Doc) (oid : BVal) (upd : List (String × BVal))
    (h : ∀ d ∈ coll, matchesId oid d = false) :
    update_one coll oid upd = (0, coll) := by
  induction coll with
  | nil => rfl
  | cons d rest ih =>
    simp [update_one, h d (List.mem_cons_self d rest),
      ih (fun d' hd' => h d' (List.mem_cons_of_mem d hd'))]

theorem delete_one_no_match (coll : List Doc) (oid : BVal)
    (h : ∀ d ∈ coll, matchesId oid d = false) :
    delete_one coll oid = (0, coll) := by
  induction coll with
  | nil => rfl
  | cons d rest ih =>
    simp [delete_one, h d (List.mem_cons_self d rest),
      ih (fun d' hd' => h d' (List.mem_cons_of_mem d hd'))]

theorem update_one_found (coll : List Doc) (oid : BVal) (upd : List (String × BVal))
    (d : Doc) (hfind : find_one coll oid = some d) (hid : "_id" ∉ upd.map Prod.fst) :
    (update_one coll oid upd).1 = 1 ∧
    find_one ((update_one coll oid upd).2) oid = some (applySet d upd) := by
  induction coll with
  | nil => simp [find_one] at hfind
  | cons d₀ rest ih =>
    by_cases h : matchesId oid d₀
    · have hd : d₀ = d := by
        have := hfind
        rw [find_one, List.find?_cons_of_pos _ h] at this
        exact Option.some.inj this
      subst hd
      have hm : matchesId oid (applySet d₀ upd) = true := by
        unfold matchesId at h ⊢
        rw [applySet_lookup_not_mem upd d₀ "_id" hid]
        exact h
      constructor
      · simp [update_one, h]
      · simp [update_one, h, find_one, List.find?_cons_of_pos _ hm]
    · have hfind' : find_one rest oid = some d := by
        have := hfind
        rw [find_one, List.find?_cons_of_neg _ h] at this
        exact this
      obtain ⟨h1, h2⟩ := ih hfind'
      refine ⟨by simp [update_one, h, h1], ?_⟩
      rw [show (update_one (d₀ :: rest) oid upd).2 = d₀ :: (update_one rest oid upd).2 by
        simp [update_one, h]]
      rw [find_one, List.find?_cons_of_neg _ h]
      exact h2

theorem delete_one_sublist (coll : List Doc) (oid : BVal) :
    List.Sublist ((delete_one coll oid).2) coll := by
  induction coll with
  | nil => exact List.Sublist.refl _
  | cons d rest ih =>
    by_cases h : matchesId oid d
    · rw [show (delete_one (d :: rest) oid).2 = rest by simp [delete_one, h]]
      exact List.sublist_cons_self d rest
    · rw [show (delete_one (d :: rest) oid).2 = d :: (delete_one rest oid).2 by
        simp [delete_one, h]]
      exact List.Sublist.cons₂ d ih

-- serialize_doc lemmas ------------------------------------------------------

theorem map_iso_idem (d : Doc) :
    (d.map (fun p => (p.1, isoStep p.2))).map (fun p => (p.1, isoStep p.2)) =
      d.map (fun p => (p.1, isoStep p.2)) := by
  induction d with
  | nil => rfl
  | cons hd tl ih => simp [ih, isoStep_isoStep]

theorem serialize_doc_id (d : Doc) (v : BVal) (hid : dlookup d "_id" = some v) :
    dlookup (serialize_doc d) "id" = some (.str (pyStr v)) := by
  have hde : d.isEmpty = false := by
    cases d with
    | nil => simp [dlookup] at hid
    | cons hd tl => rfl
  obtain ⟨rest, hpop⟩ := dlookup_some_dpop d "_id" v hid
  rw [serialize_doc, hde]
  simp only [Bool.false_eq_true, if_false, hpop]
  rw [dlookup_map_iso, dlookup_dset_self]
  rfl

theorem serialize_doc_no_under_id (d : Doc) (v : BVal)
    (hnd : (d.map Prod.fst).Nodup) (hid : dlookup d "_id" = some v) :
    dlookup (serialize_doc d) "_id" = none := by
  have hde : d.isEmpty = false := by
    cases d with
    | nil => simp [dlookup] at hid
    | cons hd tl => rfl
  obtain ⟨rest, hpop⟩ := dlookup_some_dpop d "_id" v hid
  rw [serialize_doc, hde]
  simp only [Bool.false_eq_true, if_false, hpop]
  rw [dlookup_map_iso, dlookup_dset_ne _ _ _ _ (by decide : ("id" : String) ≠ "_id"),
    dpop_rest_dlookup_none d "_id" v rest hnd hpop]
  rfl

theorem serialize_doc_other (d : Doc) (k : String)
    (hk1 : k ≠ "_id") (hk2 : k ≠ "id") :
    dlookup (serialize_doc d) k = (dlookup d k).map isoStep := by
  cases hde : d.isEmpty with
  | true =>
    have : d = [] := by cases d <;> simp_all
    subst this
    rfl
  | false =>
    rw [serialize_doc, hde]
    simp only [Bool.false_eq_true, if_false]
    cases hpop : dpop d "_id" with
    | none => exact dlookup_map_iso d k
    | some q =>
      obtain ⟨v, rest⟩ := q
      rw [dlookup_map_iso, dlookup_dset_ne _ _ _ _ (fun hh => hk2 hh.symm),
        dlookup_dpop_ne d k "_id" v rest hpop hk1]

theorem serialize_doc_idem (d : Doc) (hnd : (d.map Prod.fst).Nodup) :
    serialize_doc (serialize_doc d) = serialize_doc d := by
  cases hde : d.isEmpty with
  | true =>
    have : d = [] := by cases d <;> simp_all
    subst this
    rfl
  | false =>
    have hsd : serialize_doc d =
        (match dpop d "_id" with
          | some (v, rest) => dset rest "id" (.str (pyStr v))
          | none => d).map (fun p : String × BVal => (p.1, isoStep p.2)) := by
      rw [serialize_doc, hde]
      simp only [Bool.false_eq_true, if_false]
    have hnoid : dlookup (serialize_doc d) "_id" = none := by
      cases hpop : dpop d "_id" with
      | none =>
        rw [hsd, hpop, dlookup_map_iso, (dpop_none_iff d "_id").mp hpop]
        rfl
      | some q =>
        obtain ⟨v, rest⟩ := q
        exact serialize_doc_no_under_id d v hnd (dpop_some_dlookup d "_id" v rest hpop)
    cases hse : (serialize_doc d).isEmpty with
    | true =>
      rw [serialize_doc, hse]
      simp
    | false =>
      rw [serialize_doc, hse]
      simp only [Bool.false_eq_true, if_false, (dpop_none_iff (serialize_doc d) "_id").mpr hnoid]
      rw [hsd]
      exact map_iso_idem _

-- update_data key lemmas ----------------------------------------------------

theorem optField_keys_sublist (k : String) (v : Option BVal) :
    List.Sublist ((optField k v).map Prod.fst) [k] := by
  cases v with
  | none => exact List.nil_sublist _
  | some w => exact List.Sublist.refl _

theorem event_keys_sublist (p : EventUpdate) (t : BVal) :
    List.Sublist ((p.update_data ++ [("updated_at", t)]).map Prod.fst)
      ["title", "description", "date", "time", "location", "audience", "link",
       "updated_at"] := by
  unfold EventUpdate.update_data
  simpa using
    ((optField_keys_sublist "title" (p.title.map BVal.str)).append
      ((optField_keys_sublist "description" (p.description.map BVal.str)).append
        ((optField_keys_sublist "date" (p.date.map BVal.str)).append
          ((optField_keys_sublist "time" (p.time.map BVal.str)).append
            ((optField_keys_sublist "location" (p.location.map BVal.str)).append
              ((optField_keys_sublist "audience" (p.audience.map BVal.str)).append
                ((optField_keys_sublist "link" (p.link.map BVal.str)).append
                  (List.Sublist.refl ["updated_at"]))))))))

theorem course_keys_sublist (p : CourseUpdate) (t : BVal) :
    List.Sublist ((p.update_data ++ [("updated_at", t)]).map Prod.fst)
      ["code", "title", "semester", "year", "lecturer", "credits", "description",
       "updated_at"] := by
  unfold CourseUpdate.update_data
  simpa using
    ((optField_keys_sublist "code" (p.code.map BVal.str)).append
      ((optField_keys_sublist "title" (p.title.map BVal.str)).append
        ((optField_keys_sublist "semester" (p.semester.map BVal.str)).append
          ((optField_keys_sublist "year" (p.year.map BVal.int)).append
            ((optField_keys_sublist "lecturer" (p.lecturer.map BVal.str)).append
              ((optField_keys_sublist "credits" (p.credits.map BVal.int)).append
                ((optField_keys_sublist "description" (p.description.map BVal.str)).append
                  (List.Sublist.refl ["updated_at"]))))))))

theorem timetable_keys_sublist (p : TimetableUpdate) (t : BVal) :
    List.Sublist ((p.update_data ++ [("updated_at", t)]).map Prod.fst)
      ["semester", "year", "day", "start_time", "end_time", "course_code",
       "venue", "lecturer", "notes", "updated_at"] := by
  unfold TimetableUpdate.update_data
  simpa using
    ((optField_keys_sublist "semester" (p.semester.map BVal.str)).append
      ((optField_keys_sublist "year" (p.year.map BVal.int)).append
        ((optField_keys_sublist "day" (p.day.map BVal.str)).append
          ((optField_keys_sublist "start_time" (p.start_time.map BVal.str)).append
            ((optField_keys_sublist "end_time" (p.end_time.map BVal.str)).append
              ((optField_keys_sublist "course_code" (p.course_code.map BVal.str)).append
                ((optField_keys_sublist "venue" (p.venue.map BVal.str)).append
                  ((optField_keys_sublist "lecturer" (p.lecturer.map BVal.str)).append
                    ((optField_keys_sublist "notes" (p.notes.map BVal.str)).append
                      (List.Sublist.refl ["updated_at"]))))))))))

theorem event_full_keys_nodup (p : EventUpdate) (t : BVal) :
    ((p.update_data ++ [("updated_at", t)]).map Prod.fst).Nodup :=
  List.Nodup.sublist (event_keys_sublist p t) (by decide)

theorem course_full_keys_nodup (p : CourseUpdate) (t : BVal) :
    ((p.update_data ++ [("updated_at", t)]).map Prod.fst).Nodup :=
  List.Nodup.sublist (course_keys_sublist p t) (by decide)

theorem timetable_full_keys_nodup (p : TimetableUpdate) (t : BVal) :
    ((p.update_data ++ [("updated_at", t)]).map Prod.fst).Nodup :=
  List.Nodup.sublist (timetable_keys_sublist p t) (by decide)

theorem event_id_key_not_mem (p : EventUpdate) (t : BVal) :
    "_id" ∉ (p.update_data ++ [("updated_at", t)]).map Prod.fst := by
  intro hmem
  exact absurd ((event_keys_sublist p t).subset hmem) (by decide)

theorem course_id_key_not_mem (p : CourseUpdate) (t : BVal) :
    "_id" ∉ (p.update_data ++ [("updated_at", t)]).map Prod.fst := by
  intro hmem
  exact absurd ((course_keys_sublist p t).subset hmem) (by decide)

theorem timetable_id_key_not_mem (p : TimetableUpdate) (t : BVal) :
    "_id" ∉ (p.update_data ++ [("updated_at", t)]).map Prod.fst := by
  intro hmem
  exact absurd ((timetable_keys_sublist p t).subset hmem) (by decide)

-- ObjectId parsing lemmas ---------------------------------------------------

theorem parseObjectId_valid (s : String) (h : isValidObjectId s = true) :
    parseObjectId s = some (.oid (strToLower s)) := by
  simp [parseObjectId, h]

theorem parseObjectId_invalid (s : String) (h : isValidObjectId s = false) :
    parseObjectId s = none := by
  simp [parseObjectId, h]

-- Handler state-shape lemmas ------------------------------------------------

theorem update_event_state_cases (coll : List Doc) (id : String)
    (p : EventUpdate) (t : BVal) :
    (update_event coll id p t).1 = coll ∨
    (update_event coll id p t).1 =
      (update_one coll (.oid (strToLower id)) (p.update_data ++ [("updated_at", t)])).2 := by
  unfold update_event
  cases hv : isValidObjectId id with
  | false => rw [parseObjectId_invalid id hv]; exact Or.inl rfl
  | true =>
    rw [parseObjectId_valid id hv]
    cases hud : p.update_data.isEmpty with
    | true => simp [hud]
    | false =>
      right
      cases hm : ((update_one coll (.oid (strToLower id))
          (p.update_data ++ [("updated_at", t)])).1 == 0) with
      | true => simp [hud, hm]
      | false => simp [hud, hm]

theorem update_course_state_cases (coll : List Doc) (id : String)
    (p : CourseUpdate) (t : BVal) :
    (update_course coll id p t).1 = coll ∨
    (update_course coll id p t).1 =
      (update_one coll (.oid (strToLower id)) (p.update_data ++ [("updated_at", t)])).2 := by
  unfold update_course
  cases hv : isValidObjectId id with
  | false => rw [parseObjectId_invalid id hv]; exact Or.inl rfl
  | true =>
    rw [parseObjectId_valid id hv]
    cases hud : p.update_data.isEmpty with
    | true => simp [hud]
    | false =>
      right
      cases hm : ((update_one coll (.oid (strToLower id))
          (p.update_data ++ [("updated_at", t)])).1 == 0) with
      | true => simp [hud, hm]
      | false => simp [hud, hm]

theorem update_timetable_state_cases (coll : List Doc) (id : String)
    (p : TimetableUpdate) (t : BVal) :
    (update_timetable coll id p t).1 = coll ∨
    (update_timetable coll id p t).1 =
      (update_one coll (.oid (strToLower id)) (p.update_data ++ [("updated_at", t)])).2 := by
  unfold update_timetable
  cases hv : isValidObjectId id with
  | false => rw [parseObjectId_invalid id hv]; exact Or.inl rfl
  | true =>
    rw [parseObjectId_valid id hv]
    cases hud : p.update_data.isEmpty with
    | true => simp [hud]
    | false =>
      right
      cases hm : ((update_one coll (.oid (strToLower id))
          (p.update_data ++ [("updated_at", t)])).1 == 0) with
      | true => simp [hud, hm]
      | false => simp [hud, hm]

theorem delete_event_state_cases (coll : List Doc) (id : String) :
    (delete_event coll id).1 = coll ∨
    (delete_event coll id).1 = (delete_one coll (.oid (strToLower id))).2 := by
  unfold delete_event
  cases hv : isValidObjectId id with
  | false => rw [parseObjectId_invalid id hv]; exact Or.inl rfl
  | true =>
    rw [parseObjectId_valid id hv]
    right
    cases hm : ((delete_one coll (.oid (strToLower id))).1 == 0) with
    | true => simp [hm]
    | false => simp [hm]

theorem delete_course_state_cases (coll : List Doc) (id : String) :
    (delete_course coll id).1 = coll ∨
    (delete_course coll id).1 = (delete_one coll (.oid (strToLower id))).2 := by
  unfold delete_course
  cases hv : isValidObjectId id with
  | false => rw [parseObjectId_invalid id hv]; exact Or.inl rfl
  | true =>
    rw [parseObjectId_valid id hv]
    right
    cases hm : ((delete_one coll (.oid (strToLower id))).1 == 0) with
    | true => simp [hm]
    | false => simp [hm]

theorem delete_timetable_state_cases (coll : List Doc) (id : String) :
    (delete_timetable coll id).1 = coll ∨
    (delete_timetable coll id).1 = (delete_one coll (.oid (strToLower id))).2 := by
  unfold delete_timetable
  cases hv : isValidObjectId id with
  | false => rw [parseObjectId_invalid id hv]; exact Or.inl rfl
  | true =>
    rw [parseObjectId_valid id hv]
    right
    cases hm : ((delete_one coll (.oid (strToLower id))).1 == 0) with
    | true => simp [hm]
    | false => simp [hm]

/-- Helper: a value that is not a date/datetime is untouched by the
serialization loop. -/
theorem isoStep_eq_self (v : BVal) (h : ∀ s, v ≠ .date s) : isoStep v = v := by
  cases v with
  | date s => exact absurd rfl (h s)
  | str s => rfl
  | int n => rfl
  | oid s => rfl
  | bool b => rfl
  | null => rfl

-- ===========================================================================
-- Claims
-- ===========================================================================

/-- C1: a successful PUT on an event with a partial payload changes only
the supplied fields plus the server-stamped `updated_at`.  Formally: when
the id is well-formed, the payload has at least one non-null field and a
record `d` with that id exists, the stored record after `update_event` is
`d` with exactly the payload's `$set` applied; every key not supplied by
the payload (and different from `updated_at`) keeps its prior value, in
the updated record and across the whole collection. -/
theorem claim_C1 (coll : List Doc) (id : String) (p : EventUpdate) (t : BVal)
    (d : Doc)
    (hvalid : isValidObjectId id = true)
    (hfind : find_one coll (.oid (strToLower id)) = some d)
    (hne : p.update_data ≠ []) :
    find_one ((update_event coll id p t).1) (.oid (strToLower id)) =
      some (applySet d (p.update_data ++ [("updated_at", t)])) ∧
    (∀ k, k ∉ (p.update_data ++ [("updated_at", t)]).map Prod.fst →
      dlookup (applySet d (p.update_data ++ [("updated_at", t)])) k = dlookup d k) ∧
    (∀ kv ∈ p.update_data,
      dlookup (applySet d (p.update_data ++ [("updated_at", t)])) kv.1 = some kv.2) ∧
    dlookup (applySet d (p.update_data ++ [("updated_at", t)])) "updated_at" = some t ∧
    (∀ k, k ∉ (p.update_data ++ [("updated_at", t)]).map Prod.fst →
      ((update_event coll id p t).1).map (fun e => dlookup e k) =
        coll.map (fun e => dlookup e k)) := by
  have hid := event_id_key_not_mem p t
  have hfound := update_one_found coll (.oid (strToLower id))
    (p.update_data ++ [("updated_at", t)]) d hfind hid
  have hstate : (update_event coll id p t).1 =
      (update_one coll (.oid (strToLower id)) (p.update_data ++ [("updated_at", t)])).2 := by
    unfold update_event
    rw [parseObjectId_valid id hvalid]
    simp [List.isEmpty_eq_false.mpr hne, hfound.1]
  refine ⟨?_, ?_, ?_, ?_, ?_⟩
  · rw [hstate]; exact hfound.2
  · intro k hk; exact applySet_lookup_not_mem _ d k hk
  · intro kv hkv
    exact applySet_lookup_mem _ d kv.1 kv.2 (event_full_keys_nodup p t)
      (List.mem_append_left _ hkv)
  · rw [applySet_append]
    exact dlookup_dset_self _ _ _
  · intro k hk
    rw [hstate]
    exact update_one_frame coll _ _ k hk

theorem claim_C1_witness :
    dlookup (applySet exDoc (exPayload.update_data ++ [("updated_at", exTime)]))
      "updated_at" = some exTime ∧
    dlookup (applySet exDoc (exPayload.update_data ++ [("updated_at", exTime)]))
      "location" = some (.str "Main Hall") ∧
    dlookup (applySet exDoc (exPayload.update_data ++ [("updated_at", exTime)]))
      "title" = dlookup exDoc "title" := by
  have h := claim_C1 exColl exOid exPayload exTime exDoc (by decide) (by decide) (by decide)
  exact ⟨h.2.2.2.1,
    h.2.2.1 ("location", .str "Main Hall") (by decide),
    h.2.1 "title" (by decide)⟩

/-- C2: a malformed identifier makes every update and delete handler of
all three entity types fail with BadRequest 400 and leave the collection
untouched (the error is raised before any store call). -/
theorem claim_C2 (collE collC collT : List Doc) (id : String)
    (pE : EventUpdate) (pC : CourseUpdate) (pT : TimetableUpdate) (t : BVal)
    (hbad : isValidObjectId id = false) :
    update_event collE id pE t = (collE, .error (.badRequest "Invalid event id")) ∧
    delete_event collE id = (collE, .error (.badRequest "Invalid event id")) ∧
    update_course collC id pC t = (collC, .error (.badRequest "Invalid course id")) ∧
    delete_course collC id = (collC, .error (.badRequest "Invalid course id")) ∧
    update_timetable collT id pT t = (collT, .error (.badRequest "Invalid timetable id")) ∧
    delete_timetable collT id = (collT, .error (.badRequest "Invalid timetable id")) := by
  refine ⟨?_, ?_, ?_, ?_, ?_, ?_⟩
  · unfold update_event; rw [parseObjectId_invalid id hbad]
  · unfold delete_event; rw [parseObjectId_invalid id hbad]
  · unfold update_course; rw [parseObjectId_invalid id hbad]
  · unfold delete_course; rw [parseObjectId_invalid id hbad]
  · unfold update_timetable; rw [parseObjectId_invalid id hbad]
  · unfold delete_timetable; rw [parseObjectId_invalid id hbad]

theorem claim_C2_witness :
    update_event [] "nope" {} exTime = ([], .error (.badRequest "Invalid event id")) ∧
    delete_event [] "nope" = ([], .error (.badRequest "Invalid event id")) ∧
    update_course [] "nope" {} exTime = ([], .error (.badRequest "Invalid course id")) ∧
    delete_course [] "nope" = ([], .error (.badRequest "Invalid course id")) ∧
    update_timetable [] "nope" {} exTime = ([], .error (.badRequest "Invalid timetable id")) ∧
    delete_timetable [] "nope" = ([], .error (.badRequest "Invalid timetable id")) :=
  claim_C2 [] [] [] "nope" {} {} {} exTime (by decide)

/-- C3: a well-formed identifier that matches no record makes update
(matched count 0, non-empty payload) and delete (deleted count 0) fail
with NotFound 404, for all three entity types, leaving each collection
unchanged. -/
theorem claim_C3 (collE collC collT : List Doc) (id : String)
    (pE : EventUpdate) (pC : CourseUpdate) (pT : TimetableUpdate) (t : BVal)
    (hvalid : isValidObjectId id = true)
    (hE : ∀ d ∈ collE, matchesId (.oid (strToLower id)) d = false)
    (hC : ∀ d ∈ collC, matchesId (.oid (strToLower id)) d = false)
    (hT : ∀ d ∈ collT, matchesId (.oid (strToLower id)) d = false)
    (hpE : pE.update_data ≠ []) (hpC : pC.update_data ≠ [])
    (hpT : pT.update_data ≠ []) :
    update_event collE id pE t = (collE, .error (.notFound "Event not found")) ∧
    delete_event collE id = (collE, .error (.notFound "Event not found")) ∧
    update_course collC id pC t = (collC, .error (.notFound "Course not found")) ∧
    delete_course collC id = (collC, .error (.notFound "Course not found")) ∧
    update_timetable collT id pT t =
      (collT, .error (.notFound "Timetable slot not found")) ∧
    delete_timetable collT id = (collT, .error (.notFound "Timetable slot not found")) := by
  refine ⟨?_, ?_, ?_, ?_, ?_, ?_⟩
  · unfold update_event
    rw [parseObjectId_valid id hvalid]
    simp [List.isEmpty_eq_false.mpr hpE, update_one_no_match collE _ _ hE]
  · unfold delete_event
    rw [parseObjectId_valid id hvalid]
    simp [delete_one_no_match collE _ hE]
  · unfold update_course
    rw [parseObjectId_valid id hvalid]
    simp [List.isEmpty_eq_false.mpr hpC, update_one_no_match collC _ _ hC]
  · unfold delete_course
    rw [parseObjectId_valid id hvalid]
    simp [delete_one_no_match collC _ hC]
  · unfold update_timetable
    rw [parseObjectId_valid id hvalid]
    simp [List.isEmpty_eq_false.mpr hpT, update_one_no_match collT _ _ hT]
  · unfold delete_timetable
    rw [parseObjectId_valid id hvalid]
    simp [delete_one_no_match collT _ hT]

theorem claim_C3_witness :
    update_event [] exOid exPayload exTime = ([], .error (.notFound "Event not found")) ∧
    delete_event [] exOid = ([], .error (.notFound "Event not found")) ∧
    update_course [] exOid exCoursePayload exTime =
      ([], .error (.notFound "Course not found")) ∧
    delete_course [] exOid = ([], .error (.notFound "Course not found")) ∧
    update_timetable [] exOid exSlotPayload exTime =
      ([], .error (.notFound "Timetable slot not found")) ∧
    delete_timetable [] exOid = ([], .error (.notFound "Timetable slot not found")) :=
  claim_C3 [] [] [] exOid exPayload exCoursePayload exSlotPayload exTime
    rfl (fun d hd => absurd hd (List.not_mem_nil d))
    (fun d hd => absurd hd (List.not_mem_nil d))
    (fun d hd => absurd hd (List.not_mem_nil d))
    (by decide) (by decide) (by decide)

/-- C4: an update whose payload has zero non-null fields (the all-default
payload) fails with BadRequest 400 before any store write, for all three
entity types; the collection state returned is the input state. -/
theorem claim_C4 (collE collC collT : List Doc) (id : String) (t : BVal)
    (pE : EventUpdate) (pC : CourseUpdate) (pT : TimetableUpdate)
    (hvalid : isValidObjectId id = true)
    (hpE : pE = {}) (hpC : pC = {}) (hpT : pT = {}) :
    update_event collE id pE t = (collE, .error (.badRequest "No fields to update")) ∧
    update_course collC id pC t = (collC, .error (.badRequest "No fields to update")) ∧
    update_timetable collT id pT t =
      (collT, .error (.badRequest "No fields to update")) := by
  subst hpE; subst hpC; subst hpT
  refine ⟨?_, ?_, ?_⟩
  · unfold update_event
    rw [parseObjectId_valid id hvalid]
    rfl
  · unfold update_course
    rw [parseObjectId_valid id hvalid]
    rfl
  · unfold update_timetable
    rw [parseObjectId_valid id hvalid]
    rfl

theorem claim_C4_witness :
    update_event exColl exOid {} exTime =
      (exColl, .error (.badRequest "No fields to update")) ∧
    update_course exCourseColl exOid {} exTime =
      (exCourseColl, .error (.badRequest "No fields to update")) ∧
    update_timetable [] exOid {} exTime =
      ([], .error (.badRequest "No fields to update")) :=
  claim_C4 exColl exCourseColl [] exOid exTime {} {} {} rfl rfl rfl rfl

/-- C9: no update handler ever includes the identifier field in its
`$set` (the `"_id"` key never appears in the computed update data), so
the `_id` of every stored record is preserved by all three update
handlers; the delete handlers only remove whole records (the surviving
collection is a sublist of the original), never altering one. -/
theorem claim_C9 :
    (∀ (p : EventUpdate) (t : BVal),
      "_id" ∉ (p.update_data ++ [("updated_at", t)]).map Prod.fst) ∧
    (∀ (p : CourseUpdate) (t : BVal),
      "_id" ∉ (p.update_data ++ [("updated_at", t)]).map Prod.fst) ∧
    (∀ (p : TimetableUpdate) (t : BVal),
      "_id" ∉ (p.update_data ++ [("updated_at", t)]).map Prod.fst) ∧
    (∀ (coll : List Doc) (id : String) (p : EventUpdate) (t : BVal),
      ((update_event coll id p t).1).map (fun d => dlookup d "_id") =
        coll.map (fun d => dlookup d "_id")) ∧
    (∀ (coll : List Doc) (id : String) (p : CourseUpdate) (t : BVal),
      ((update_course coll id p t).1).map (fun d => dlookup d "_id") =
        coll.map (fun d => dlookup d "_id")) ∧
    (∀ (coll : List Doc) (id : String) (p : TimetableUpdate) (t : BVal),
      ((update_timetable coll id p t).1).map (fun d => dlookup d "_id") =
        coll.map (fun d => dlookup d "_id")) ∧
    (∀ (coll : List Doc) (id : String),
      List.Sublist ((delete_event coll id).1) coll) ∧
    (∀ (coll : List Doc) (id : String),
      List.Sublist ((delete_course coll id).1) coll) ∧
    (∀ (coll : List Doc) (id : String),
      List.Sublist ((delete_timetable coll id).1) coll) := by
  refine ⟨event_id_key_not_mem, course_id_key_not_mem,
    timetable_id_key_not_mem, ?_, ?_, ?_, ?_, ?_, ?_⟩
  · intro coll id p t
    rcases update_event_state_cases coll id p t with h | h
    · rw [h]
    · rw [h]; exact update_one_frame coll _ _ "_id" (event_id_key_not_mem p t)
  · intro coll id p t
    rcases update_course_state_cases coll id p t with h | h
    · rw [h]
    · rw [h]; exact update_one_frame coll _ _ "_id" (course_id_key_not_mem p t)
  · intro coll id p t
    rcases update_timetable_state_cases coll id p t with h | h
    · rw [h]
    · rw [h]; exact update_one_frame coll _ _ "_id" (timetable_id_key_not_mem p t)
  · intro coll id
    rcases delete_event_state_cases coll id with h | h
    · rw [h]
    · rw [h]; exact delete_one_sublist coll _
  · intro coll id
    rcases delete_course_state_cases coll id with h | h
    · rw [h]
    · rw [h]; exact delete_one_sublist coll _
  · intro coll id
    rcases delete_timetable_state_cases coll id with h | h
    · rw [h]
    · rw [h]; exact delete_one_sublist coll _

theorem claim_C9_witness :
    "_id" ∉ (exPayload.update_data ++ [("updated_at", exTime)]).map Prod.fst ∧
    ((update_event exColl exOid exPayload exTime).1).map (fun d => dlookup d "_id") =
      exColl.map (fun d => dlookup d "_id") ∧
    List.Sublist ((delete_event exColl exOid).1) exColl :=
  ⟨claim_C9.1 exPayload exTime,
   claim_C9.2.2.2.1 exColl exOid exPayload exTime,
   claim_C9.2.2.2.2.2.2.1 exColl exOid⟩

/-- C5: on Course and Timetable create payloads whose other constrained
fields are valid, pydantic validation succeeds exactly when the year lies
in the inclusive range [2000, 2100]; in particular both boundary years
pass and everything outside fails. -/
theorem claim_C5 :
    (∀ p : CourseIn, validSemester p.semester = true →
      creditsInRange (p.credits.getD 3) = true →
      (validateCourse p = true ↔ 2000 ≤ p.year ∧ p.year ≤ 2100)) ∧
    (∀ p : TimetableIn, validSemester p.semester = true → validDay p.day = true →
      (validateTimetable p = true ↔ 2000 ≤ p.year ∧ p.year ≤ 2100)) := by
  constructor
  · intro p h1 h2
    simp [validateCourse, yearInRange, h1, h2]
  · intro p h1 h2
    simp [validateTimetable, yearInRange, h1, h2]

theorem claim_C5_witness :
    validateCourse ⟨"GYD101", "Intro", "Fall", 2000, none, none, none⟩ = true ∧
    validateCourse ⟨"GYD101", "Intro", "Fall", 2100, none, none, none⟩ = true ∧
    validateCourse ⟨"GYD101", "Intro", "Fall", 1999, none, none, none⟩ = false ∧
    validateTimetable ⟨"Fall", 2000, "Monday", "09:00", "10:30", "GYD101",
      none, none, none⟩ = true ∧
    validateTimetable ⟨"Fall", 2100, "Monday", "09:00", "10:30", "GYD101",
      none, none, none⟩ = true ∧
    validateTimetable ⟨"Fall", 2101, "Monday", "09:00", "10:30", "GYD101",
      none, none, none⟩ = false := by
  refine ⟨(claim_C5.1 _ (by decide) (by decide)).mpr (by decide),
    (claim_C5.1 _ (by decide) (by decide)).mpr (by decide), ?_,
    (claim_C5.2 _ (by decide) (by decide)).mpr (by decide),
    (claim_C5.2 _ (by decide) (by decide)).mpr (by decide), ?_⟩
  · have h := claim_C5.1 ⟨"GYD101", "Intro", "Fall", 1999, none, none, none⟩
      (by decide) (by decide)
    cases hv : validateCourse ⟨"GYD101", "Intro", "Fall", 1999, none, none, none⟩ with
    | false => rfl
    | true => exact absurd (h.mp hv).1 (by decide)
  · have h := claim_C5.2 ⟨"Fall", 2101, "Monday", "09:00", "10:30", "GYD101",
      none, none, none⟩ (by decide) (by decide)
    cases hv : validateTimetable ⟨"Fall", 2101, "Monday", "09:00", "10:30", "GYD101",
      none, none, none⟩ with
    | false => rfl
    | true => exact absurd (h.mp hv).2 (by decide)

/-- C6: on a stored record (no duplicate keys, `_id` present),
`serialize_doc` renames `_id` to `id` rendered via `str`, drops `_id`,
renders every date/datetime value as its ISO-8601 string, passes every
other field through unchanged, and is idempotent.  The Python function
copies its argument before mutating, so the caller's record is never
modified, which the pure embedding reflects. -/
theorem claim_C6 (d : Doc) (v : BVal)
    (hnd : (d.map Prod.fst).Nodup) (hid : dlookup d "_id" = some v) :
    dlookup (serialize_doc d) "id" = some (.str (pyStr v)) ∧
    dlookup (serialize_doc d) "_id" = none ∧
    (∀ k, k ≠ "_id" → k ≠ "id" →
      dlookup (serialize_doc d) k = (dlookup d k).map isoStep) ∧
    (∀ k s, k ≠ "_id" → k ≠ "id" → dlookup d k = some (.date s) →
      dlookup (serialize_doc d) k = some (.str s)) ∧
    (∀ k w, k ≠ "_id" → k ≠ "id" → (∀ s, w ≠ .date s) → dlookup d k = some w →
      dlookup (serialize_doc d) k = some w) ∧
    serialize_doc (serialize_doc d) = serialize_doc d := by
  refine ⟨serialize_doc_id d v hid, serialize_doc_no_under_id d v hnd hid,
    fun k h1 h2 => serialize_doc_other d k h1 h2, ?_, ?_, serialize_doc_idem d hnd⟩
  · intro k s h1 h2 hkv
    rw [serialize_doc_other d k h1 h2, hkv]
    rfl
  · intro k w h1 h2 hw hkv
    rw [serialize_doc_other d k h1 h2, hkv]
    simp [isoStep_eq_self w hw]

theorem claim_C6_witness :
    dlookup (serialize_doc exDoc) "id" = some (.str exOid) ∧
    dlookup (serialize_doc exDoc) "_id" = none ∧
    dlookup (serialize_doc exDoc) "date" = some (.str "2025-03-01") ∧
    dlookup (serialize_doc exDoc) "title" = some (.str "Open Day") ∧
    serialize_doc (serialize_doc exDoc) = serialize_doc exDoc := by
  have h := claim_C6 exDoc (.oid exOid) (by decide) (by decide)
  exact ⟨h.1, h.2.1,
    h.2.2.2.1 "date" "2025-03-01" (by decide) (by decide) (by decide),
    h.2.2.2.2.1 "title" (.str "Open Day") (by decide) (by decide)
      (fun s => by simp) (by decide),
    h.2.2.2.2.2⟩

/-- C7: listing courses with the filter semester = "Fall", year = 2025
returns exactly the (serialized) records whose `semester` and `year`
fields both match; with no filter it returns every record, truncated to
`limit` when one is given.  (`get_documents` is modelled from the spec:
`database.py` is not among the sources.) -/
theorem claim_C7 (coll : List Doc) (n : Nat) :
    list_courses coll (some "Fall") (some 2025) none =
      (coll.filter (fun d => dlookup d "semester" == some (.str "Fall") &&
        dlookup d "year" == some (.int 2025))).map serialize_doc ∧
    list_courses coll none none none = coll.map serialize_doc ∧
    list_courses coll none none (some n) = (coll.take n).map serialize_doc := by
  refine ⟨?_, ?_, ?_⟩
  · simp [list_courses, get_documents,
      show ("Fall" : String).isEmpty = false from rfl]
  · simp [list_courses, get_documents]
  · simp [list_courses, get_documents]

/-- C8: the `/test` diagnostic handler is a total function of the
configuration flags and the observable database state: it always
produces a structured response (never an unhandled fault), reporting
whether each configuration variable is set and whether the store handle
exists; a missing handle is reported in-body with the 500 detail text of
`ensure_db_available`, caught by the handler's try/except. -/
theorem claim_C8 (urlSet nameSet : Bool) (db : Option DbConn) :
    (test_database urlSet nameSet db).backend = "✅ Running" ∧
    ((test_database urlSet nameSet db).database_url = "✅ Set" ↔ urlSet = true) ∧
    ((test_database urlSet nameSet db).database_name = "✅ Set" ↔ nameSet = true) ∧
    ((test_database urlSet nameSet db).connection_status = "Connected" ↔
      db.isSome = true) ∧
    (db = none → (test_database urlSet nameSet db).database =
      "❌ Database not available. Configure DATABASE_URL and DATABASE_NAME.") := by
  rcases db with _ | conn
  · refine ⟨rfl, ?_, ?_, ?_, fun _ => rfl⟩
    · cases urlSet <;> simp [test_database, ensure_db_available]
    · cases nameSet <;> simp [test_database, ensure_db_available]
    · simp [test_database, ensure_db_available]
  · rcases conn with names | msg
    · refine ⟨rfl, ?_, ?_, ?_, fun hn => by cases hn⟩
      · cases urlSet <;> simp [test_database, ensure_db_available]
      · cases nameSet <;> simp [test_database, ensure_db_available]
      · simp [test_database, ensure_db_available]
    · refine ⟨rfl, ?_, ?_, ?_, fun hn => by cases hn⟩
      · cases urlSet <;> simp [test_database, ensure_db_available]
      · cases nameSet <;> simp [test_database, ensure_db_available]
      · simp [test_database, ensure_db_available]

theorem claim_C8_witness :
    (test_database false false none).backend = "✅ Running" ∧
    (test_database false false none).database =
      "❌ Database not available. Configure DATABASE_URL and DATABASE_NAME." ∧
    (test_database false false none).connection_status = "Not Connected" :=
  ⟨(claim_C8 false false none).1, (claim_C8 false false none).2.2.2.2 rfl, rfl⟩

/-- C10: the partial-update models carry none of the create-time
constraints: a PUT whose payload sets year = 2500, semester = "Winter"
and credits = 99 succeeds against a stored course, and the stored record
afterwards holds those values even though each one fails the
corresponding create-time check of the `Course` schema. -/
theorem claim_C10 :
    (update_course exCourseColl exCourseOid exBadUpdate exTime).2 =
      .ok (some (serialize_doc (applySet exCourseDoc
        (exBadUpdate.update_data ++ [("updated_at", exTime)])))) ∧
    find_one (update_course exCourseColl exCourseOid exBadUpdate exTime).1
        (.oid exCourseOid) =
      some (applySet exCourseDoc (exBadUpdate.update_data ++ [("updated_at", exTime)])) ∧
    dlookup (applySet exCourseDoc (exBadUpdate.update_data ++ [("updated_at", exTime)]))
      "year" = some (.int 2500) ∧
    yearInRange 2500 = false ∧
    dlookup (applySet exCourseDoc (exBadUpdate.update_data ++ [("updated_at", exTime)]))
      "semester" = some (.str "Winter") ∧
    validSemester "Winter" = false ∧
    dlookup (applySet exCourseDoc (exBadUpdate.update_data ++ [("updated_at", exTime)]))
      "credits" = some (.int 99) ∧
    creditsInRange 99 = false := by
  exact ⟨rfl, rfl, rfl, rfl, rfl, rfl, rfl, rfl⟩

end GYD
